import Mathlib

/-!
Shallow embedding of the MERN todo application:
the mongoose `Todo` model (`todo-backend/models/todo.js`), the four Express
route handlers (`todo-backend/routes/todo.js`), and the React client state
machine (`todo-frontend/src/App.jsx`).

Modelling choices:
* Mongo ObjectIds are opaque; we model them as `Nat`.
* Timestamps (`createdAt`, `updatedAt`, managed by `timestamps: true`) are `Nat`.
* The database collection is a `List Todo`; `Todo.find().sort({ createdAt: -1 })`
  is modelled by an insertion sort on the `createdAt` key, descending.
* Async request outcomes seen by the client are passed explicitly
  (`Except Unit Todo` etc.): `.ok` is a resolved axios promise, `.error` a
  rejected one (network/server failure).
-/

namespace TodoApp

/-- A persisted todo document, as produced by the mongoose `TodoSchema`
(`models/todo.js`): `title` (String, required), `completed` (Boolean,
default `false`), plus the `timestamps: true` fields and Mongo's `_id`. -/
structure Todo where
  _id : Nat
  title : String
  completed : Bool
  createdAt : Nat
  updatedAt : Nat
  deriving DecidableEq, Repr

/-- The database collection backing the `Todo` model. -/
abbrev Store := List Todo

/-- `new Todo({ title })` followed by `todo.save()` at time `now`, with a
fresh `_id`: `completed` defaults to `false`, `timestamps: true` sets
`createdAt = updatedAt = now`.  The new document is prepended (position in
the raw collection is irrelevant: all reads sort). -/
def insertTodo (s : Store) (id : Nat) (title : String) (now : Nat) : Store :=
  ⟨id, title, false, now, now⟩ :: s

/-- `b` was created no earlier than ... i.e. `a`'s key is ≥ `b`'s: the
descending-`createdAt` order used by `.sort({ createdAt: -1 })`. -/
def createdDesc (a b : Todo) : Prop := b.createdAt ≤ a.createdAt

instance : DecidableRel createdDesc := fun a b => Nat.decLe b.createdAt a.createdAt

instance : IsTotal Todo createdDesc := ⟨fun a b => Nat.le_total b.createdAt a.createdAt⟩

instance : IsTrans Todo createdDesc := ⟨fun _ _ _ hab hbc => Nat.le_trans hbc hab⟩

/-- `Todo.find().sort({ createdAt: -1 })`: every document, most recent
first. -/
def listAll (s : Store) : List Todo := s.insertionSort createdDesc

/-- The subset of `{title, completed}` an update request carries
(`req.body` of the PUT route; the client sends `{completed}` from
`handleToggle` and `{title}` from `saveEditedTodo`). -/
structure UpdateBody where
  title : Option String
  completed : Option Bool
  deriving DecidableEq, Repr

/-- Applying an update body to a document: mongoose `$set`s exactly the
supplied fields and, because of `timestamps: true`, refreshes `updatedAt`;
`createdAt` and `_id` are untouched. -/
def applyBody (r : Todo) (u : UpdateBody) (now : Nat) : Todo :=
  { r with
    title := u.title.getD r.title
    completed := u.completed.getD r.completed
    updatedAt := now }

/-- `Todo.findByIdAndUpdate(id, updates, { new: true })` at time `now`:
resolves with the updated document when `id` matches, with `null` (`none`)
when it does not; the collection is updated in place. -/
def findByIdAndUpdate (s : Store) (id : Nat) (u : UpdateBody) (now : Nat) :
    Option Todo × Store :=
  match s.find? (fun t => t._id = id) with
  | none => (none, s)
  | some r =>
      (some (applyBody r u now),
       s.map (fun t => if t._id = id then applyBody t u now else t))

/-- `Todo.findByIdAndDelete(id)`: removes the matching document (a no-op
when none matches). -/
def findByIdAndDelete (s : Store) (id : Nat) : Store :=
  s.filter (fun t => t._id ≠ id)

/-- Possible responses of `POST /api/todos`.  The route can answer
`400 {error}`, `201` with the created document, or `500 {error}`; the
`serverError` arm is the `catch` branch, reachable only on a database
failure, which the embedding does not model. -/
inductive CreateResult where
  | badRequest (error : String)
  | created (todo : Todo)
  | serverError (error : String)
  deriving DecidableEq, Repr

/-- Possible responses of `PUT /api/todos/:id`.  The route answers
`res.json(todo)` where `todo` may be `null` (`ok none`), or `500` from its
`catch`; it has no 404 arm, so `notFound` is in the response vocabulary
only to state what the route never returns. -/
inductive UpdateResult where
  | ok (body : Option Todo)
  | notFound
  | serverError (error : String)
  deriving DecidableEq, Repr

/-- Possible responses of `DELETE /api/todos/:id`.  The route answers
`200 {message}` or `500` from its `catch`; `notFound` is never produced by
the code. -/
inductive DeleteResult where
  | ok (message : String)
  | notFound
  | serverError (error : String)
  deriving DecidableEq, Repr

/-- `router.get("/")`: `Todo.find().sort({ createdAt: -1 })`, sent back as
JSON.  Store reads cannot fail in the embedding, so the `catch` (500) arm
is unreachable and the route always answers 200 with the sorted list. -/
def routerGetTodos (s : Store) : List Todo := listAll s

/-- `router.post("/")` receiving body `{ title }` (`none` when the field is
absent), with `id` the ObjectId Mongo would assign and `now` the save
time.  `if (!title)` answers `400 {error: "Title required"}`; a JavaScript
string is falsy exactly when it is `""`, so only an absent or empty title
is rejected.  Otherwise the document is saved and answered with 201. -/
def routerPostTodos (s : Store) (title : Option String) (id now : Nat) :
    CreateResult × Store :=
  match title with
  | none => (.badRequest "Title required", s)
  | some t =>
      if t = "" then (.badRequest "Title required", s)
      else (.created ⟨id, t, false, now, now⟩, insertTodo s id t now)

/-- `router.put("/:id")`: forwards `req.body` verbatim to
`findByIdAndUpdate` and answers `res.json(todo)` — a 200 whether or not the
id matched (`todo` is `null` when it did not). -/
def routerPutTodo (s : Store) (id : Nat) (u : UpdateBody) (now : Nat) :
    UpdateResult × Store :=
  let p := findByIdAndUpdate s id u now
  (.ok p.1, p.2)

/-- `router.delete("/:id")`: `findByIdAndDelete` then
`res.json({ message: "Todo deleted successfully" })`, whether or not the id
existed. -/
def routerDeleteTodo (s : Store) (id : Nat) : DeleteResult × Store :=
  (.ok "Todo deleted successfully", findByIdAndDelete s id)

/-- Drop the leading whitespace characters of a character list. -/
def dropLeadingWs : List Char → List Char
  | [] => []
  | c :: cs => if c.isWhitespace then dropLeadingWs cs else c :: cs

/-- JavaScript's `String.prototype.trim()`: strip whitespace from both ends.
(Defined by structural recursion so that concrete instances evaluate.) -/
def jsTrim (s : String) : String :=
  ⟨(dropLeadingWs (dropLeadingWs s.data).reverse).reverse⟩

/-- The client's React state (`App.jsx`): the five `useState` hooks. -/
structure ClientState where
  todos : List Todo
  title : String
  loading : Bool
  editingId : Option Nat
  editedTitle : String
  deriving DecidableEq, Repr

/-- The initial hook values: `todos = []`, `title = ""`, `loading = true`,
`editingId = null`, `editedTitle = ""`. -/
def initialState : ClientState :=
  { todos := [], title := "", loading := true, editingId := none, editedTitle := "" }

/-- Outcome of the `apiGetTodos()` promise awaited by `fetchTodos`. -/
inductive FetchOutcome where
  | success (data : List Todo)
  | failure
  deriving DecidableEq, Repr

/-- `fetchTodos`: on a resolved promise `setTodos(response.data)`; on a
rejected one only `console.error`; the `finally` block runs
`setLoading(false)` in both cases. -/
def fetchTodos (st : ClientState) (o : FetchOutcome) : ClientState :=
  match o with
  | .success data => { st with todos := data, loading := false }
  | .failure => { st with loading := false }

/-- `handleAddTodo`: if `!title.trim()` it returns without a request
(first component `none`).  Otherwise it requests `apiCreateTodo(title.trim())`
(first component carries the sent title); on success the response document
is prepended (`[response.data, ...todos]`) and the input cleared
(`setTitle("")`); on failure only `console.error` runs. -/
def handleAddTodo (st : ClientState) (outcome : Except Unit Todo) :
    Option String × ClientState :=
  if jsTrim st.title = "" then (none, st)
  else
    (some (jsTrim st.title),
     match outcome with
     | .ok r => { st with todos := r :: st.todos, title := "" }
     | .error _ => st)

/-- `handleToggle(todo)` given the outcome of
`apiUpdateTodo(todo._id, { completed: !todo.completed })`: on success each
`t` with `t._id === response.data._id` is replaced by `response.data`; on
failure only `console.error` runs. -/
def handleToggle (st : ClientState) (response : Except Unit Todo) : ClientState :=
  match response with
  | .ok updated =>
      { st with
        todos := st.todos.map (fun t => if t._id = updated._id then updated else t) }
  | .error _ => st

/-- `handleDelete(id)` given the outcome of `apiDeleteTodo(id)`: on success
the local list is filtered (`t._id !== id`); on failure only
`console.error` runs. -/
def handleDelete (st : ClientState) (id : Nat) (outcome : Except Unit Unit) :
    ClientState :=
  match outcome with
  | .ok _ => { st with todos := st.todos.filter (fun t => t._id ≠ id) }
  | .error _ => st

/-- `startEditing(todo)`: `setEditingId(todo._id)` and
`setEditedTitle(todo.title)`. -/
def startEditing (st : ClientState) (todo : Todo) : ClientState :=
  { st with editingId := some todo._id, editedTitle := todo.title }

/-- `cancelEditing()`: `setEditingId(null)` and `setEditedTitle("")`. -/
def cancelEditing (st : ClientState) : ClientState :=
  { st with editingId := none, editedTitle := "" }

/-- `saveEditedTodo(id)` given the outcome of
`apiUpdateTodo(id, { title: editedTitle.trim() })`: a no-op when
`!editedTitle.trim()`; on success the record is replaced locally and
`cancelEditing()` exits edit mode; on failure edit mode stays open with the
draft retained. -/
def saveEditedTodo (st : ClientState) (id : Nat) (outcome : Except Unit Todo) :
    ClientState :=
  if jsTrim st.editedTitle = "" then st
  else
    match outcome with
    | .ok r =>
        cancelEditing
          { st with todos := st.todos.map (fun t => if t._id = id then r else t) }
    | .error _ => st

/-- A list entry renders in edit mode exactly when `editingId === todo._id`
(the conditional in the JSX). -/
def inEditMode (st : ClientState) (t : Todo) : Bool := st.editingId = some t._id

/-- When the `_id`s in `l` are pairwise distinct, at most one entry can
match any given edit target. -/
theorem countP_editTarget_le_one (ed : Option Nat) (l : List Todo)
    (h : (l.map Todo._id).Nodup) :
    l.countP (fun t => ed = some t._id) ≤ 1 := by
  induction l with
  | nil => simp
  | cons a l ih =>
      simp only [List.map_cons, List.nodup_cons] at h
      rw [List.countP_cons]
      by_cases ha : ed = some a._id
      · have hz : ∀ t ∈ l, ¬a._id = t._id := fun t ht he =>
          h.1 (List.mem_map.mpr ⟨t, ht, he.symm⟩)
        simp [ha]
        exact hz
      · simpa [ha] using ih h.2

/-- Claim C10: whatever the outcome of the client's initial list fetch, the
loading flag ends up false; on success the local list becomes exactly the
server's response, and on failure it stays the empty list, so the client
renders the empty-list view rather than a stuck loading view. -/
theorem fetchTodos_resolves_loading (data : List Todo) (o : FetchOutcome) :
    (fetchTodos initialState o).loading = false ∧
    fetchTodos initialState (.success data) =
      { initialState with todos := data, loading := false } ∧
    (fetchTodos initialState .failure).todos = [] ∧
    (fetchTodos initialState .failure).loading = false := by
  refine ⟨?_, rfl, rfl, rfl⟩
  cases o <;> rfl

/-- Claim C9: beginning an edit sets the edit target to the record's id and
seeds the draft with its current title (leaving the list itself alone, so
any other in-progress draft is abandoned unsaved); cancelling clears both
target and draft; and with pairwise-distinct ids at most one rendered
record is in edit mode in any state. -/
theorem edit_mode_at_most_one (st : ClientState) (todo : Todo)
    (hids : (st.todos.map Todo._id).Nodup) :
    (startEditing st todo).editingId = some todo._id ∧
    (startEditing st todo).editedTitle = todo.title ∧
    (startEditing st todo).todos = st.todos ∧
    (cancelEditing st).editingId = none ∧
    (cancelEditing st).editedTitle = "" ∧
    st.todos.countP (inEditMode st) ≤ 1 := by
  refine ⟨rfl, rfl, rfl, rfl, rfl, ?_⟩
  exact countP_editTarget_le_one st.editingId st.todos hids

/-- Claim C9 witness: a concrete client state with two records, one of them
the edit target. -/
theorem edit_mode_at_most_one_witness :
    (startEditing
        { todos := [⟨1, "a", false, 1, 1⟩, ⟨2, "b", true, 2, 2⟩],
          title := "", loading := false, editingId := some 1, editedTitle := "a" }
        ⟨2, "b", true, 2, 2⟩).editingId = some 2 ∧
    (startEditing
        { todos := [⟨1, "a", false, 1, 1⟩, ⟨2, "b", true, 2, 2⟩],
          title := "", loading := false, editingId := some 1, editedTitle := "a" }
        ⟨2, "b", true, 2, 2⟩).editedTitle = "b" ∧
    (startEditing
        { todos := [⟨1, "a", false, 1, 1⟩, ⟨2, "b", true, 2, 2⟩],
          title := "", loading := false, editingId := some 1, editedTitle := "a" }
        ⟨2, "b", true, 2, 2⟩).todos = [⟨1, "a", false, 1, 1⟩, ⟨2, "b", true, 2, 2⟩] ∧
    (cancelEditing
        { todos := [⟨1, "a", false, 1, 1⟩, ⟨2, "b", true, 2, 2⟩],
          title := "", loading := false, editingId := some 1, editedTitle := "a" }).editingId = none ∧
    (cancelEditing
        { todos := [⟨1, "a", false, 1, 1⟩, ⟨2, "b", true, 2, 2⟩],
          title := "", loading := false, editingId := some 1, editedTitle := "a" }).editedTitle = "" ∧
    List.countP
        (inEditMode
          { todos := [⟨1, "a", false, 1, 1⟩, ⟨2, "b", true, 2, 2⟩],
            title := "", loading := false, editingId := some 1, editedTitle := "a" })
        [⟨1, "a", false, 1, 1⟩, ⟨2, "b", true, 2, 2⟩] ≤ 1 :=
  edit_mode_at_most_one
    { todos := [⟨1, "a", false, 1, 1⟩, ⟨2, "b", true, 2, 2⟩],
      title := "", loading := false, editingId := some 1, editedTitle := "a" }
    ⟨2, "b", true, 2, 2⟩ (by decide)

/-- Claim C8: submitting the Add form with a whitespace-only input issues
no request and changes nothing; with a non-empty trimmed input the trimmed
title is sent, on success the returned record is prepended and the input
cleared, and on failure the state is unchanged. -/
theorem handleAddTodo_spec (st : ClientState) (r : Todo) :
    (jsTrim st.title = "" → ∀ o, handleAddTodo st o = (none, st)) ∧
    (jsTrim st.title ≠ "" →
      handleAddTodo st (.ok r) =
        (some (jsTrim st.title), { st with todos := r :: st.todos, title := "" }) ∧
      handleAddTodo st (.error ()) = (some (jsTrim st.title), st)) := by
  constructor
  · intro h o
    simp [handleAddTodo, h]
  · intro h
    constructor <;> simp [handleAddTodo, h]

/-- Claim C8 witness: a blank submission at title `" "` is a no-op, and a
submission at title `"milk "` sends `"milk"`, prepending on success and
changing nothing on failure. -/
theorem handleAddTodo_spec_witness :
    handleAddTodo
        { todos := [], title := " ", loading := false, editingId := none, editedTitle := "" }
        (.ok ⟨1, "x", false, 1, 1⟩) =
      (none, { todos := [], title := " ", loading := false, editingId := none, editedTitle := "" }) ∧
    handleAddTodo
        { todos := [], title := "milk ", loading := false, editingId := none, editedTitle := "" }
        (.ok ⟨1, "milk", false, 1, 1⟩) =
      (some "milk",
       { todos := [⟨1, "milk", false, 1, 1⟩], title := "", loading := false,
         editingId := none, editedTitle := "" }) ∧
    handleAddTodo
        { todos := [], title := "milk ", loading := false, editingId := none, editedTitle := "" }
        (.error ()) =
      (some "milk",
       { todos := [], title := "milk ", loading := false, editingId := none, editedTitle := "" }) :=
  ⟨(handleAddTodo_spec
      { todos := [], title := " ", loading := false, editingId := none, editedTitle := "" }
      ⟨1, "x", false, 1, 1⟩).1 (by decide) _,
   (handleAddTodo_spec
      { todos := [], title := "milk ", loading := false, editingId := none, editedTitle := "" }
      ⟨1, "milk", false, 1, 1⟩).2 (by decide) |>.1,
   (handleAddTodo_spec
      { todos := [], title := "milk ", loading := false, editingId := none, editedTitle := "" }
      ⟨1, "milk", false, 1, 1⟩).2 (by decide) |>.2⟩

/-- Claim C3: the Delete route answers 200 with the confirmation payload
for every id, existing or not — never a distinct not-found — and after it
runs, no record with that id appears in any List response. -/
theorem routerDeleteTodo_spec (s : Store) (id : Nat) :
    (routerDeleteTodo s id).1 = .ok "Todo deleted successfully" ∧
    (routerDeleteTodo s id).1 ≠ .notFound ∧
    ∀ t ∈ routerGetTodos (routerDeleteTodo s id).2, t._id ≠ id := by
  refine ⟨rfl, by simp [routerDeleteTodo], ?_⟩
  intro t ht
  simp only [routerGetTodos, listAll, List.mem_insertionSort, routerDeleteTodo,
    findByIdAndDelete, List.mem_filter, decide_eq_true_eq] at ht
  exact ht.2

/-- Claim C3 witness: deleting id 1 from a two-record store; the surviving
record (id 2) is in the post-delete listing and has a different id. -/
theorem routerDeleteTodo_spec_witness :
    (routerDeleteTodo [⟨1, "a", false, 1, 1⟩, ⟨2, "b", false, 2, 2⟩] 1).1 =
      .ok "Todo deleted successfully" ∧
    (⟨2, "b", false, 2, 2⟩ : Todo)._id ≠ 1 :=
  ⟨(routerDeleteTodo_spec [⟨1, "a", false, 1, 1⟩, ⟨2, "b", false, 2, 2⟩] 1).1,
   (routerDeleteTodo_spec [⟨1, "a", false, 1, 1⟩, ⟨2, "b", false, 2, 2⟩] 1).2.2
     ⟨2, "b", false, 2, 2⟩ (by decide)⟩

/-- Looking a record up by id after an id-preserving rewrite of the
collection finds the rewritten record. -/
theorem find?_map_id_preserving (l : List Todo) (id : Nat) (f : Todo → Todo)
    (hf : ∀ t, (f t)._id = t._id) :
    (l.map f).find? (fun t => t._id = id) =
      (l.find? (fun t => t._id = id)).map f := by
  induction l with
  | nil => rfl
  | cons a l ih =>
      by_cases h : a._id = id
      · simp [List.find?, hf, h]
      · simp [List.find?, hf, h, ih]

/-- The record `findByIdAndUpdate` stores for `id` is the one it resolves
with. -/
theorem find?_findByIdAndUpdate (s : Store) (id : Nat) (u : UpdateBody)
    (now : Nat) (r : Todo) (h : s.find? (fun t => t._id = id) = some r) :
    (findByIdAndUpdate s id u now).2.find? (fun t => t._id = id) =
      some (applyBody r u now) := by
  have hr : r._id = id := by
    have := List.find?_some h
    simpa using this
  have hf : ∀ t : Todo,
      ((fun t => if t._id = id then applyBody t u now else t) t)._id = t._id := by
    intro t
    by_cases ht : t._id = id <;> simp [applyBody, ht]
  rw [findByIdAndUpdate, h]
  simp only
  rw [find?_map_id_preserving _ _ _ hf, h]
  simp [hr, applyBody]

/-- Claim C6: partial field replacement.  On an existing record, an update
body carrying only `{title}` yields the record with the new title, the old
`completed`, and a refreshed `updatedAt`; a body carrying only
`{completed}` yields the record with the new flag and the old title. -/
theorem routerPutTodo_partial (s : Store) (r : Todo) (id : Nat) (x : String)
    (b : Bool) (now : Nat) (h : s.find? (fun t => t._id = id) = some r) :
    (routerPutTodo s id ⟨some x, none⟩ now).1 =
      .ok (some { r with title := x, updatedAt := now }) ∧
    (routerPutTodo s id ⟨none, some b⟩ now).1 =
      .ok (some { r with completed := b, updatedAt := now }) ∧
    (routerPutTodo s id ⟨some x, none⟩ now).2.find? (fun t => t._id = id) =
      some { r with title := x, updatedAt := now } ∧
    (routerPutTodo s id ⟨none, some b⟩ now).2.find? (fun t => t._id = id) =
      some { r with completed := b, updatedAt := now } := by
  refine ⟨?_, ?_, ?_, ?_⟩
  · simp [routerPutTodo, findByIdAndUpdate, h, applyBody]
  · simp [routerPutTodo, findByIdAndUpdate, h, applyBody]
  · have := find?_findByIdAndUpdate s id ⟨some x, none⟩ now r h
    simpa [routerPutTodo, applyBody] using this
  · have := find?_findByIdAndUpdate s id ⟨none, some b⟩ now r h
    simpa [routerPutTodo, applyBody] using this

/-- Claim C6 witness: updating record 1 with only a title keeps
`completed = true`; updating with only `completed` keeps the title. -/
theorem routerPutTodo_partial_witness :
    (routerPutTodo [⟨1, "old", true, 0, 0⟩] 1 ⟨some "new", none⟩ 9).1 =
      .ok (some ⟨1, "new", true, 0, 9⟩) ∧
    (routerPutTodo [⟨1, "old", true, 0, 0⟩] 1 ⟨none, some false⟩ 9).1 =
      .ok (some ⟨1, "old", false, 0, 9⟩) ∧
    (routerPutTodo [⟨1, "old", true, 0, 0⟩] 1 ⟨some "new", none⟩ 9).2.find?
        (fun t => t._id = 1) = some ⟨1, "new", true, 0, 9⟩ ∧
    (routerPutTodo [⟨1, "old", true, 0, 0⟩] 1 ⟨none, some false⟩ 9).2.find?
        (fun t => t._id = 1) = some ⟨1, "old", false, 0, 9⟩ :=
  routerPutTodo_partial [⟨1, "old", true, 0, 0⟩] ⟨1, "old", true, 0, 0⟩ 1
    "new" false 9 (by decide)

/-- Claim C2 counterexample: on the empty store no record matches id 7, yet
the update does not fail with a NotFound error — `findByIdAndUpdate`
resolves with `null` and the route answers the success shape `200 null`. -/
theorem routerPutTodo_missing_not_notFound :
    routerPutTodo [] 7 ⟨none, some true⟩ 3 = (.ok none, []) ∧
    (routerPutTodo [] 7 ⟨none, some true⟩ 3).1 ≠ .notFound := by
  decide

/-- Claim C2 amended: for every id matching no existing record, the update
yields the success-shaped `null` — the route answers 200 with a `null` body
and the store is unchanged; no NotFound error is raised. -/
theorem routerPutTodo_missing (s : Store) (id : Nat) (u : UpdateBody)
    (now : Nat) (h : ∀ r ∈ s, r._id ≠ id) :
    routerPutTodo s id u now = (.ok none, s) := by
  have hf : s.find? (fun t => t._id = id) = none := by
    rw [List.find?_eq_none]
    intro x hx
    simpa using h x hx
  simp [routerPutTodo, findByIdAndUpdate, hf]

/-- Claim C2 amended witness: updating id 7 on a store holding only id 1
answers `200 null` and leaves the store as it was. -/
theorem routerPutTodo_missing_witness :
    routerPutTodo [⟨1, "a", false, 0, 0⟩] 7 ⟨none, some true⟩ 3 =
      (.ok none, [⟨1, "a", false, 0, 0⟩]) :=
  routerPutTodo_missing [⟨1, "a", false, 0, 0⟩] 7 ⟨none, some true⟩ 3 (by decide)

/-- Claim C1 counterexample: the whitespace-only title `" "` is truthy in
JavaScript, so `if (!title)` does not fire: the route answers 201 and a
record with title `" "` is inserted — not the claimed 400 with an untouched
store. -/
theorem routerPostTodos_whitespace_accepted :
    routerPostTodos [] (some " ") 1 5 =
      (.created ⟨1, " ", false, 5, 5⟩, [⟨1, " ", false, 5, 5⟩]) ∧
    (routerPostTodos [] (some " ") 1 5).1 ≠ .badRequest "Title required" ∧
    (routerPostTodos [] (some " ") 1 5).2 ≠ ([] : Store) := by
  decide

/-- Claim C1 amended: a Create request whose title is absent or the empty
string is answered 400 `"Title required"` with the store untouched; every
other title — whitespace-only ones included — is inserted and answered 201
with the created record. -/
theorem routerPostTodos_spec (s : Store) (t : String) (id now : Nat) :
    routerPostTodos s none id now = (.badRequest "Title required", s) ∧
    routerPostTodos s (some "") id now = (.badRequest "Title required", s) ∧
    (t ≠ "" →
      routerPostTodos s (some t) id now =
        (.created ⟨id, t, false, now, now⟩, ⟨id, t, false, now, now⟩ :: s)) := by
  refine ⟨rfl, by simp [routerPostTodos], fun h => ?_⟩
  simp [routerPostTodos, h, insertTodo]

/-- Claim C1 amended witness: an absent and an empty title are rejected on
the empty store; the title `"Buy milk"` is created. -/
theorem routerPostTodos_spec_witness :
    routerPostTodos [] none 1 5 = (.badRequest "Title required", []) ∧
    routerPostTodos [] (some "") 1 5 = (.badRequest "Title required", []) ∧
    routerPostTodos [] (some "Buy milk") 1 5 =
      (.created ⟨1, "Buy milk", false, 5, 5⟩, [⟨1, "Buy milk", false, 5, 5⟩]) :=
  ⟨(routerPostTodos_spec [] "Buy milk" 1 5).1,
   (routerPostTodos_spec [] "Buy milk" 1 5).2.1,
   (routerPostTodos_spec [] "Buy milk" 1 5).2.2 (by decide)⟩

/-- Claim C4: creating any non-empty title with a fresh id succeeds with a
record carrying exactly that title, `completed = false` and
`createdAt = updatedAt`, and the subsequent listing contains exactly one
occurrence of that new record. -/
theorem create_then_list_once (s : Store) (t : String) (id now : Nat)
    (ht : t ≠ "") (hid : ∀ r ∈ s, r._id ≠ id) :
    ∃ r s2, routerPostTodos s (some t) id now = (.created r, s2) ∧
      r.title = t ∧ r.completed = false ∧ r.createdAt = r.updatedAt ∧
      r ∈ routerGetTodos s2 ∧
      (routerGetTodos s2).countP (fun x => x = r) = 1 := by
  refine ⟨⟨id, t, false, now, now⟩, ⟨id, t, false, now, now⟩ :: s,
    by simp [routerPostTodos, ht, insertTodo], rfl, rfl, rfl, ?_, ?_⟩
  · simp [routerGetTodos, listAll]
  · have hperm : (routerGetTodos (⟨id, t, false, now, now⟩ :: s)).Perm
        (⟨id, t, false, now, now⟩ :: s) :=
      List.perm_insertionSort createdDesc _
    rw [hperm.countP_eq]
    rw [List.countP_cons]
    have hz : s.countP (fun x => x = (⟨id, t, false, now, now⟩ : Todo)) = 0 := by
      rw [List.countP_eq_zero]
      intro x hx
      simp only [decide_eq_true_eq]
      intro he
      exact hid x hx (by rw [he])
    simp [hz]

/-- Claim C4 witness: creating `"Buy milk"` with fresh id 2 on a one-record
store. -/
theorem create_then_list_once_witness :
    ∃ r s2, routerPostTodos [⟨1, "a", false, 0, 0⟩] (some "Buy milk") 2 7 =
        (.created r, s2) ∧
      r.title = "Buy milk" ∧ r.completed = false ∧ r.createdAt = r.updatedAt ∧
      r ∈ routerGetTodos s2 ∧
      (routerGetTodos s2).countP (fun x => x = r) = 1 :=
  create_then_list_once [⟨1, "a", false, 0, 0⟩] "Buy milk" 2 7 (by decide)
    (by decide)

/-- Claim C7: on a record present in the store (with the client holding the
same copy), the toggle round trip — `PUT` with `{completed: !completed}`,
the client adopting `response.data` — flips the flag, and a second toggle
restores it; each toggle's response carries a strictly larger `updatedAt`
whenever the clock has advanced past the record's current `updatedAt`. -/
theorem toggle_twice (s : Store) (r : Todo) (t1 t2 : Nat)
    (hfind : s.find? (fun t => t._id = r._id) = some r)
    (h1 : r.updatedAt < t1) (h2 : t1 < t2) :
    ∃ u1 u2 s1 s2,
      routerPutTodo s r._id ⟨none, some (!r.completed)⟩ t1 = (.ok (some u1), s1) ∧
      routerPutTodo s1 u1._id ⟨none, some (!u1.completed)⟩ t2 = (.ok (some u2), s2) ∧
      u1.completed = !r.completed ∧
      u2.completed = r.completed ∧
      u2.title = r.title ∧
      r.updatedAt < u1.updatedAt ∧ u1.updatedAt < u2.updatedAt ∧
      ∀ st : ClientState, (handleToggle st (.ok u1)).todos =
        st.todos.map (fun t => if t._id = r._id then u1 else t) := by
  refine ⟨applyBody r ⟨none, some (!r.completed)⟩ t1,
    applyBody (applyBody r ⟨none, some (!r.completed)⟩ t1)
      ⟨none, some (!(applyBody r ⟨none, some (!r.completed)⟩ t1).completed)⟩ t2,
    (findByIdAndUpdate s r._id ⟨none, some (!r.completed)⟩ t1).2,
    (findByIdAndUpdate (findByIdAndUpdate s r._id ⟨none, some (!r.completed)⟩ t1).2
      ((applyBody r ⟨none, some (!r.completed)⟩ t1)._id)
      ⟨none, some (!(applyBody r ⟨none, some (!r.completed)⟩ t1).completed)⟩ t2).2,
    ?_, ?_, ?_, ?_, ?_, ?_, ?_, ?_⟩
  · rw [routerPutTodo, findByIdAndUpdate, hfind]
  · have hid : (applyBody r ⟨none, some (!r.completed)⟩ t1)._id = r._id := rfl
    have hstep := find?_findByIdAndUpdate s r._id ⟨none, some (!r.completed)⟩ t1 r hfind
    rw [routerPutTodo, hid, findByIdAndUpdate, hstep]
  · simp [applyBody]
  · simp [applyBody]
  · simp [applyBody]
  · simpa [applyBody] using h1
  · simpa [applyBody] using h2
  · intro st
    rfl

/-- Claim C7 witness: toggling record 1 (initially not completed) at times
1 and 2. -/
theorem toggle_twice_witness :
    ∃ u1 u2 s1 s2,
      routerPutTodo [⟨1, "a", false, 0, 0⟩] (⟨1, "a", false, 0, 0⟩ : Todo)._id
          ⟨none, some (!(⟨1, "a", false, 0, 0⟩ : Todo).completed)⟩ 1 =
        (.ok (some u1), s1) ∧
      routerPutTodo s1 u1._id ⟨none, some (!u1.completed)⟩ 2 = (.ok (some u2), s2) ∧
      u1.completed = !(⟨1, "a", false, 0, 0⟩ : Todo).completed ∧
      u2.completed = (⟨1, "a", false, 0, 0⟩ : Todo).completed ∧
      u2.title = (⟨1, "a", false, 0, 0⟩ : Todo).title ∧
      (⟨1, "a", false, 0, 0⟩ : Todo).updatedAt < u1.updatedAt ∧
      u1.updatedAt < u2.updatedAt ∧
      ∀ st : ClientState, (handleToggle st (.ok u1)).todos =
        st.todos.map
          (fun t => if t._id = (⟨1, "a", false, 0, 0⟩ : Todo)._id then u1 else t) :=
  toggle_twice [⟨1, "a", false, 0, 0⟩] ⟨1, "a", false, 0, 0⟩ 1 2 (by decide)
    (by decide) (by decide)

/-- Strictly-later-created or equal: an antisymmetric strengthening of
`createdDesc`, used to identify sorted permutations with distinct keys. -/
def createdDescStrict (a b : Todo) : Prop := b.createdAt < a.createdAt ∨ a = b

/-- A `createdDesc`-sorted list with pairwise distinct creation times is
sorted for the strict order as well. -/
theorem sorted_strict (l : List Todo) (hs : List.Sorted createdDesc l)
    (hne : l.Pairwise (fun a b => a.createdAt ≠ b.createdAt)) :
    List.Sorted createdDescStrict l := by
  induction l with
  | nil => exact List.Pairwise.nil
  | cons a l ih =>
      cases hs with
      | cons ha hl =>
          cases hne with
          | cons hb hk =>
              refine List.Pairwise.cons (fun b hbm => Or.inl ?_) (ih hl hk)
              have h1 : b.createdAt ≤ a.createdAt := ha b hbm
              have h2 : a.createdAt ≠ b.createdAt := hb b hbm
              omega

/-- Claim C5: the List route returns a permutation of the store sorted by
`createdAt` descending, the empty store lists as the empty sequence, and a
store holding exactly three records created at times `t1 < t2 < t3` (in any
arrangement) lists as `[t3-record, t2-record, t1-record]`. -/
theorem routerGetTodos_spec (s : Store) (r1 r2 r3 : Todo) (q : Store)
    (h12 : r1.createdAt < r2.createdAt) (h23 : r2.createdAt < r3.createdAt)
    (hq : q.Perm [r1, r2, r3]) :
    (routerGetTodos s).Perm s ∧
    List.Sorted createdDesc (routerGetTodos s) ∧
    routerGetTodos ([] : Store) = [] ∧
    routerGetTodos q = [r3, r2, r1] := by
  refine ⟨List.perm_insertionSort createdDesc s,
    List.sorted_insertionSort createdDesc s, rfl, ?_⟩
  have hanti : IsAntisymm Todo createdDescStrict := by
    constructor
    intro a b hab hba
    rcases hab with h | h
    · rcases hba with h' | h'
      · omega
      · exact h'.symm
    · exact h
  have hperm : (routerGetTodos q).Perm [r1, r2, r3] :=
    (List.perm_insertionSort createdDesc q).trans hq
  have hne : List.Pairwise (fun a b : Todo => a.createdAt ≠ b.createdAt)
      [r1, r2, r3] := by
    refine List.Pairwise.cons ?_ (List.Pairwise.cons ?_ (List.pairwise_singleton _ _))
    · intro b hb
      rcases List.mem_cons.mp hb with rfl | hb
      · omega
      · rcases List.mem_singleton.mp hb with rfl
        omega
    · intro b hb
      rcases List.mem_singleton.mp hb with rfl
      omega
  have hne2 : List.Pairwise (fun a b : Todo => a.createdAt ≠ b.createdAt)
      (routerGetTodos q) := by
    refine (hperm.pairwise_iff ?_).mpr hne
    intro a b h h'
    exact h h'.symm
  have hs1 : List.Sorted createdDescStrict (routerGetTodos q) :=
    sorted_strict _ (List.sorted_insertionSort createdDesc q) hne2
  have hs2 : List.Sorted createdDescStrict [r3, r2, r1] := by
    refine List.Pairwise.cons ?_ (List.Pairwise.cons ?_ (List.pairwise_singleton _ _))
    · intro b hb
      rcases List.mem_cons.mp hb with rfl | hb
      · exact Or.inl h23
      · rcases List.mem_singleton.mp hb with rfl
        exact Or.inl (lt_trans h12 h23)
    · intro b hb
      rcases List.mem_singleton.mp hb with rfl
      exact Or.inl h12
  have hrev : ([r1, r2, r3] : List Todo).Perm [r3, r2, r1] := by
    have h := List.reverse_perm [r3, r2, r1]
    simpa using h
  exact @List.eq_of_perm_of_sorted Todo createdDescStrict hanti _ _
    (hperm.trans hrev) hs1 hs2

/-- Claim C5 witness: a three-record store created at times 1 < 2 < 3, held
in a scrambled arrangement, lists newest first. -/
theorem routerGetTodos_spec_witness :
    (routerGetTodos [⟨2, "b", false, 2, 2⟩, ⟨3, "c", false, 3, 3⟩, ⟨1, "a", false, 1, 1⟩]).Perm
      [⟨2, "b", false, 2, 2⟩, ⟨3, "c", false, 3, 3⟩, ⟨1, "a", false, 1, 1⟩] ∧
    List.Sorted createdDesc
      (routerGetTodos [⟨2, "b", false, 2, 2⟩, ⟨3, "c", false, 3, 3⟩, ⟨1, "a", false, 1, 1⟩]) ∧
    routerGetTodos ([] : Store) = [] ∧
    routerGetTodos [⟨2, "b", false, 2, 2⟩, ⟨3, "c", false, 3, 3⟩, ⟨1, "a", false, 1, 1⟩] =
      [⟨3, "c", false, 3, 3⟩, ⟨2, "b", false, 2, 2⟩, ⟨1, "a", false, 1, 1⟩] :=
  routerGetTodos_spec
    [⟨2, "b", false, 2, 2⟩, ⟨3, "c", false, 3, 3⟩, ⟨1, "a", false, 1, 1⟩]
    ⟨1, "a", false, 1, 1⟩ ⟨2, "b", false, 2, 2⟩ ⟨3, "c", false, 3, 3⟩
    [⟨2, "b", false, 2, 2⟩, ⟨3, "c", false, 3, 3⟩, ⟨1, "a", false, 1, 1⟩]
    (by decide) (by decide) (by decide)

end TodoApp
